import Mathlib

/-!
Verification of the per-channel buffering and fan-out delivery scheduler of
the WebRTCStream component.  The definitions below are a shallow embedding of
the C++ source: `std::deque<EncodedFrame>` buffers become `List EncodedFrame`,
`std::map` registries become association lists looked up by string key, byte
vectors become `List Nat` (each entry a value below 256 in practice), and the
delivery worker's per-channel drain loop becomes a structural recursion over
the buffer contents.
-/

namespace WebRTC

/-- Mirrors `struct EncodedFrame`: raw payload bytes, keyframe flag, capture
timestamp in microseconds. -/
structure EncodedFrame where
  data : List Nat
  isKeyframe : Bool
  timestampUs : Nat
deriving DecidableEq

/-- Mirrors `struct MediaChannel`: id, kind, codec, bounded FIFO buffer,
capacity, and the SPS/PPS/IDR parameter-set cache with the sync-observed
flag (`gotIdr`). -/
structure MediaChannel where
  id : String
  kind : String
  codec : String
  buffer : List EncodedFrame
  maxFrames : Nat
  sps : List Nat
  pps : List Nat
  idr : List Nat
  gotIdr : Bool
deriving DecidableEq

/-- The channel value built by `WebRTCStream::addChannel`: empty buffer,
empty parameter-set cache, `gotIdr = false` (the in-class initializer). -/
def mkChannel (id kind codec : String) (maxFrames : Nat) : MediaChannel :=
  { id := id, kind := kind, codec := codec, buffer := [],
    maxFrames := maxFrames, sps := [], pps := [], idr := [], gotIdr := false }

/-- The channel registry `std::map<std::string, std::shared_ptr<MediaChannel>>`,
embedded as an association list with unique keys. -/
abbrev Registry := List (String × MediaChannel)

/-- Registry lookup, mirroring `channels.find(channelId)`. -/
def findCh : Registry → String → Option MediaChannel
  | [], _ => none
  | (k, ch) :: rest, cid => if k = cid then some ch else findCh rest cid

/-- In-place mutation of the channel stored under a key (the C++ code mutates
the shared channel object through the map entry). -/
def updateCh : Registry → String → (MediaChannel → MediaChannel) → Registry
  | [], _, _ => []
  | (k, ch) :: rest, cid, g =>
      if k = cid then (k, g ch) :: rest else (k, ch) :: updateCh rest cid g

/-- Mirrors `WebRTCStream::addChannel`: `channels[id] = make_shared<...>`
replaces an existing entry or inserts a new one. -/
def addChannel (chans : Registry) (id kind codec : String) (maxFrames : Nat) :
    Registry :=
  if (findCh chans id).isSome then
    updateCh chans id (fun _ => mkChannel id kind codec maxFrames)
  else
    chans ++ [(id, mkChannel id kind codec maxFrames)]

/-- The buffer step of `pushFrame`/`pushFrame2`:
`if (ch->buffer.size() >= ch->maxFrames) ch->buffer.pop_front();
 ch->buffer.push_back(frame);`. -/
def bufAppend (maxFrames : Nat) (buffer : List EncodedFrame)
    (f : EncodedFrame) : List EncodedFrame :=
  (if maxFrames ≤ buffer.length then buffer.tail else buffer) ++ [f]

/-- Mirrors `WebRTCStream::pushFrame`: unknown channel id is a silent no-op;
otherwise append with drop-oldest eviction.  (The `cv.notify_one()` signal has
no effect on the registry state.) -/
def pushFrame (chans : Registry) (channelId : String) (data : List Nat)
    (isKeyframe : Bool) (ts : Nat) : Registry :=
  match findCh chans channelId with
  | none => chans
  | some _ =>
      updateCh chans channelId fun ch =>
        let f : EncodedFrame := ⟨data, isKeyframe, ts⟩
        { ch with buffer := bufAppend ch.maxFrames ch.buffer f }

/-- The NAL-unit type indicator: `data[0] & 0x1F` (only consulted on a
non-empty payload). -/
def nalType (data : List Nat) : Nat := data.headD 0 &&& 31

/-- The classification step at the top of `pushFrame2`: on a non-empty
payload, type 7 overwrites the cached SPS, type 8 the cached PPS, type 5
caches the IDR unit and sets `gotIdr`; anything else changes nothing. -/
def classifyNal (ch : MediaChannel) (data : List Nat) : MediaChannel :=
  if data = [] then ch
  else if nalType data = 7 then { ch with sps := data }
  else if nalType data = 8 then { ch with pps := data }
  else if nalType data = 5 then { ch with idr := data, gotIdr := true }
  else ch

/-- Mirrors `WebRTCStream::pushFrame2`: silent no-op on an unknown channel;
otherwise classify the leading NAL byte into the parameter-set cache, then
append with drop-oldest eviction. -/
def pushFrame2 (chans : Registry) (channelId : String) (data : List Nat)
    (isKeyframe : Bool) (ts : Nat) : Registry :=
  match findCh chans channelId with
  | none => chans
  | some _ =>
      updateCh chans channelId fun ch =>
        let ch' := classifyNal ch data
        let f : EncodedFrame := ⟨data, isKeyframe, ts⟩
        { ch' with buffer := bufAppend ch'.maxFrames ch'.buffer f }

/-- One connected receiver (`struct Client`): per channel id, the media track
and data channel sinks, each reduced to its observable `isOpen()` flag. -/
structure Client where
  tracks : List (String × Bool)
  dataChannels : List (String × Bool)
deriving DecidableEq

/-- Sink-map lookup, mirroring `client.tracks.find(...)` /
`client.dataChannels.find(...)`. -/
def findFlag : List (String × Bool) → String → Option Bool
  | [], _ => none
  | (k, b) :: rest, cid => if k = cid then some b else findFlag rest cid

/-- The `EncodedFrame latest` local of the broadcast functions: the back of
the buffer if non-empty, else a default-constructed frame (empty data). -/
def latestFrame (ch : MediaChannel) : EncodedFrame :=
  (ch.buffer.getLast?).getD ⟨[], false, 0⟩

/-- The payload-type rewrite on byte 1 of the outgoing packet:
`pData[1] = (marker ? 0x80 : 0x00) | 109;` where
`marker = (pData[1] & 0x80) != 0`. -/
def rewritePT (bytes : List Nat) : List Nat :=
  bytes.set 1 ((if bytes.getD 1 0 &&& 128 ≠ 0 then 128 else 0) ||| 109)

/-- Modelled from the spec: `rtc::RtpHeader::setSsrc` lives in the transport
part of this repository, outside src/.  The spec says the synchronization-
source identifier field is overwritten with a fixed per-stream value; per the
standard RTP header layout that field is the 32-bit big-endian word at byte
offset 8. -/
def setSsrc (bytes : List Nat) (ssrc : Nat) : List Nat :=
  ((((bytes.set 8 (ssrc / 2 ^ 24 % 256)).set 9 (ssrc / 2 ^ 16 % 256)).set
      10 (ssrc / 2 ^ 8 % 256)).set 11 (ssrc % 256))

/-- The full per-send byte rewrite of `broadcast`/`broadcast2`: payload-type
byte rewrite, then `rtp->setSsrc(123456)`. -/
def rewriteFrame (bytes : List Nat) : List Nat :=
  setSsrc (rewritePT bytes) 123456

/-- The `toSend` batch built by `broadcast2` for one channel: if the latest
payload is an IDR unit and both SPS and PPS are cached, prepend them. -/
def toSend2 (ch : MediaChannel) (latest : List Nat) : List (List Nat) :=
  if nalType latest = 5 ∧ ch.sps ≠ [] ∧ ch.pps ≠ [] then
    [ch.sps, ch.pps, latest]
  else
    [latest]

/-- The sends `broadcast2` issues for one client and one channel: gated on a
non-empty latest payload and `gotIdr`, and on the client holding an open
track for the channel; each batch element is sent after the byte rewrite. -/
def clientChannelSends2 (client : Client) (ch : MediaChannel) :
    List (List Nat) :=
  let latest := (latestFrame ch).data
  if latest ≠ [] ∧ ch.gotIdr = true then
    match findFlag client.tracks ch.id with
    | some true => (toSend2 ch latest).map rewriteFrame
    | _ => []
  else []

/-- The sends `broadcast` (the ungated variant invoked by `loop`) issues for
one client and one channel: any non-empty latest payload is rewritten and
sent to an open track, with no `gotIdr` test. -/
def clientChannelSends (client : Client) (ch : MediaChannel) :
    List (List Nat) :=
  let latest := (latestFrame ch).data
  if latest ≠ [] then
    match findFlag client.tracks ch.id with
    | some true => [rewriteFrame latest]
    | _ => []
  else []

/-- All sends of one `broadcast()` call, in iteration order (outer loop over
clients, inner loop over channels). -/
def broadcastSends (clients : List Client) (chans : Registry) :
    List (List Nat) :=
  clients.foldr
    (fun c acc =>
      chans.foldr (fun kv a => clientChannelSends c kv.2 ++ a) [] ++ acc)
    []

/-- Mirrors `WebRTCStream::broadcastData`: true iff at least one client holds
an open data channel for this channel id (the `sent` flag; the result of
`dc->send` itself is not consulted). -/
def broadcastData (clients : List Client) (channelId : String) : Bool :=
  clients.any fun c => (findFlag c.dataChannels channelId).getD false

/-- The delivery verdict computed inside `loop` for one channel: data
channels use `broadcastData`; for media channels `broadcast()` is called but
`delivered` keeps its initial value `false`
(the `/*delivered = */broadcast();` line). -/
def deliverFlag (clients : List Client) (ch : MediaChannel) : Bool :=
  if ch.kind = "data" then broadcastData clients ch.id else false

/-- The per-channel drain of `loop` with a fixed delivery verdict: pop empty
payload frames, pop a non-empty frame when delivered, stop at the first
non-empty frame otherwise. -/
def drainBuffer (delivered : Bool) : List EncodedFrame → List EncodedFrame
  | [] => []
  | f :: rest =>
      if f.data = [] then drainBuffer delivered rest
      else if delivered then drainBuffer delivered rest
      else f :: rest

/-- One pass of `loop` over a single channel (the clients are those visible
during the pass; the verdict is constant because `broadcastData` ignores the
frame payload). -/
def drainChannelPass (clients : List Client) (ch : MediaChannel) :
    MediaChannel :=
  { ch with buffer := drainBuffer (deliverFlag clients ch) ch.buffer }

/-- Number of `pop_front` calls the per-channel drain loop performs when no
producer pushes during the pass. -/
def drainPops (delivered : Bool) : List EncodedFrame → Nat
  | [] => 0
  | f :: rest =>
      if f.data = [] then 1 + drainPops delivered rest
      else if delivered then 1 + drainPops delivered rest
      else 0

/-- Number of `pop_front` calls of a drain pass interleaved with producer
pushes: the first list argument is the schedule of frames pushed, one after
each loop iteration (each push goes through the drop-oldest append of
`pushFrame`); once the schedule is exhausted the pass continues undisturbed. -/
def drainIPops (delivered : Bool) (max : Nat) :
    List EncodedFrame → List EncodedFrame → Nat
  | [], buf => drainPops delivered buf
  | _ :: _, [] => 0
  | p :: ps, f :: rest =>
      if f.data = [] then
        1 + drainIPops delivered max ps (bufAppend max rest p)
      else if delivered then
        1 + drainIPops delivered max ps (bufAppend max rest p)
      else 0

/-- Frames removed from one channel by a single scheduler pass, given the
connected clients and a schedule of concurrent pushes. -/
def drainPassPopsI (clients : List Client) (ch : MediaChannel)
    (pushes : List EncodedFrame) : Nat :=
  drainIPops (deliverFlag clients ch) ch.maxFrames pushes ch.buffer

/-- One producer call, for stating properties of arbitrary push sequences. -/
structure PushEv where
  channelId : String
  data : List Nat
  isKeyframe : Bool
  ts : Nat
deriving DecidableEq

/-- A sequence of `pushFrame` calls applied in order. -/
def pushSeq (chans : Registry) (evs : List PushEv) : Registry :=
  evs.foldl (fun cs e => pushFrame cs e.channelId e.data e.isKeyframe e.ts)
    chans

/-- The condition of the `pop_front` eviction branch of `pushFrame` holding
on an empty buffer (which in the C++ source would pop from an empty deque). -/
def evictsFromEmpty (ch : MediaChannel) : Prop :=
  ch.maxFrames ≤ ch.buffer.length ∧ ch.buffer = []

instance (ch : MediaChannel) : Decidable (evictsFromEmpty ch) := by
  unfold evictsFromEmpty; infer_instance

/-! ### Helper lemmas -/

theorem mem_updateCh_cases {p : String × MediaChannel} {chans : Registry}
    {cid : String} {g : MediaChannel → MediaChannel}
    (hp : p ∈ updateCh chans cid g) :
    p ∈ chans ∨ ∃ ch, (p.1, ch) ∈ chans ∧ p.2 = g ch := by
  induction chans with
  | nil => simp [updateCh] at hp
  | cons q rest ih =>
      obtain ⟨k, ch⟩ := q
      by_cases hk : k = cid
      · subst hk
        simp [updateCh] at hp
        rcases hp with hp | hp
        · right
          refine ⟨ch, ?_, ?_⟩
          · rw [hp]; exact List.mem_cons_self _ _
          · rw [hp]
        · left; exact List.mem_cons_of_mem _ hp
      · simp [updateCh, hk] at hp
        rcases hp with hp | hp
        · left; simp [hp]
        · rcases ih hp with h | ⟨ch', hch', he⟩
          · left; exact List.mem_cons_of_mem _ h
          · right; exact ⟨ch', List.mem_cons_of_mem _ hch', he⟩

theorem findCh_updateCh_self (chans : Registry) (cid : String)
    (g : MediaChannel → MediaChannel) :
    findCh (updateCh chans cid g) cid = (findCh chans cid).map g := by
  induction chans with
  | nil => simp [updateCh, findCh]
  | cons q rest ih =>
      obtain ⟨k, ch⟩ := q
      by_cases hk : k = cid
      · simp [updateCh, findCh, hk]
      · simp [updateCh, findCh, hk, ih]

theorem bufAppend_length_le {max : Nat} {buf : List EncodedFrame}
    (f : EncodedFrame) (hmax : 1 ≤ max) (h : buf.length ≤ max) :
    (bufAppend max buf f).length ≤ max := by
  unfold bufAppend
  split
  next hc =>
    simp only [List.length_append, List.length_tail, List.length_cons,
      List.length_nil]
    omega
  next hc =>
    simp only [List.length_append, List.length_cons, List.length_nil]
    omega

theorem bufAppend_length_le_succ (max : Nat) (buf : List EncodedFrame)
    (f : EncodedFrame) :
    (bufAppend max buf f).length ≤ buf.length + 1 := by
  unfold bufAppend
  split
  next hc =>
    simp only [List.length_append, List.length_tail, List.length_cons,
      List.length_nil]
    omega
  next hc =>
    simp only [List.length_append, List.length_cons, List.length_nil]
    omega

/-- Joint invariant used for the buffer-bound claim: every registered channel
has positive capacity and a buffer within capacity. -/
def RegInv (chans : Registry) : Prop :=
  ∀ p ∈ chans, 1 ≤ p.2.maxFrames ∧ p.2.buffer.length ≤ p.2.maxFrames

theorem pushFrame_regInv {chans : Registry} (e : PushEv)
    (h : RegInv chans) :
    RegInv (pushFrame chans e.channelId e.data e.isKeyframe e.ts) := by
  unfold pushFrame
  cases hfind : findCh chans e.channelId with
  | none => exact h
  | some ch0 =>
      intro p hp
      rcases mem_updateCh_cases hp with hmem | ⟨ch, hch, he⟩
      · exact h p hmem
      · have hinv := h (p.1, ch) hch
        refine ⟨?_, ?_⟩
        · rw [he]; exact hinv.1
        · rw [he]; exact bufAppend_length_le _ hinv.1 hinv.2

theorem pushSeq_regInv {chans : Registry} (evs : List PushEv)
    (h : RegInv chans) : RegInv (pushSeq chans evs) := by
  induction evs generalizing chans with
  | nil => exact h
  | cons e rest ih =>
      simp only [pushSeq, List.foldl_cons]
      exact ih (pushFrame_regInv e h)

/-! ### Claim theorems -/

/-- Claim C1: for every channel and every sequence of `pushFrame` calls (each
channel configured with `maxFrames ≥ 1`, the spec's `createChannel`
constraint), the buffer length never exceeds the configured `maxFrames`, and
a push arriving when the buffer is at capacity removes the oldest buffered
frame before appending the new one (drop-oldest FIFO). -/
theorem pushFrame_buffer_bounded_dropOldest (chans : Registry)
    (evs : List PushEv)
    (h1 : ∀ p ∈ chans, 1 ≤ p.2.maxFrames)
    (h2 : ∀ p ∈ chans, p.2.buffer.length ≤ p.2.maxFrames) :
    (∀ p ∈ pushSeq chans evs, p.2.buffer.length ≤ p.2.maxFrames) ∧
    (∀ (max : Nat) (buf : List EncodedFrame) (f : EncodedFrame),
      buf.length = max → bufAppend max buf f = buf.tail ++ [f]) := by
  constructor
  · have hinv : RegInv chans := fun p hp => ⟨h1 p hp, h2 p hp⟩
    exact fun p hp => (pushSeq_regInv evs hinv p hp).2
  · intro max buf f hlen
    unfold bufAppend
    simp [hlen.symm.le]

/-- Claim C1 witness: a concrete video channel with capacity 2 receiving
three pushes stays within capacity, and a push at capacity drops the oldest
frame. -/
theorem pushFrame_buffer_bounded_dropOldest_witness :
    (∀ p ∈ pushSeq [("v", mkChannel "v" "video" "H264" 2)]
        [⟨"v", [1], false, 0⟩, ⟨"v", [2], false, 1⟩, ⟨"v", [3], false, 2⟩],
      p.2.buffer.length ≤ p.2.maxFrames) ∧
    bufAppend 2 [⟨[1], false, 0⟩, ⟨[2], false, 1⟩] ⟨[3], false, 2⟩ =
      [⟨[2], false, 1⟩, ⟨[3], false, 2⟩] := by
  have h := pushFrame_buffer_bounded_dropOldest
    [("v", mkChannel "v" "video" "H264" 2)]
    [⟨"v", [1], false, 0⟩, ⟨"v", [2], false, 1⟩, ⟨"v", [3], false, 2⟩]
    (by decide) (by decide)
  exact ⟨h.1, h.2 2 [⟨[1], false, 0⟩, ⟨[2], false, 1⟩] ⟨[3], false, 2⟩ rfl⟩

/-- Claim C9: a `pushFrame` (or `pushFrame2`) call whose channel id is not in
the registry is a silent no-op: it returns with every channel's buffer,
parameter-set cache, and sync-observed flag unchanged. -/
theorem pushFrame_unknown_channel_noop (chans : Registry) (cid : String)
    (data : List Nat) (kf : Bool) (ts : Nat)
    (h : findCh chans cid = none) :
    pushFrame chans cid data kf ts = chans ∧
    pushFrame2 chans cid data kf ts = chans := by
  constructor
  · unfold pushFrame; rw [h]
  · unfold pushFrame2; rw [h]

/-- Claim C9 witness: pushing to the unregistered id `nochan` leaves a
concrete one-channel registry untouched. -/
theorem pushFrame_unknown_channel_noop_witness :
    pushFrame [("v", mkChannel "v" "video" "H264" 3)] "nochan" [1] false 0 =
      [("v", mkChannel "v" "video" "H264" 3)] ∧
    pushFrame2 [("v", mkChannel "v" "video" "H264" 3)] "nochan" [1] false 0 =
      [("v", mkChannel "v" "video" "H264" 3)] :=
  pushFrame_unknown_channel_noop [("v", mkChannel "v" "video" "H264" 3)]
    "nochan" [1] false 0 (by decide)

/-- Claim C10: with `maxFrames ≥ 1` the eviction branch of `pushFrame` never
pops from an empty buffer (its guard `size() >= maxFrames` forces a non-empty
buffer), while a channel created with `maxFrames = 0` satisfies the eviction
guard on its empty buffer at the very first push. -/
theorem evict_branch_empty_buffer (ch : MediaChannel)
    (h : 1 ≤ ch.maxFrames) :
    ¬ evictsFromEmpty ch ∧
    ∀ cid kind codec, evictsFromEmpty (mkChannel cid kind codec 0) := by
  constructor
  · rintro ⟨hle, hnil⟩
    rw [hnil] at hle
    simp at hle
    omega
  · intro cid kind codec
    exact ⟨by simp [mkChannel], rfl⟩

/-- Claim C10 witness: a concrete capacity-3 channel never evicts from empty,
and a capacity-0 channel does so at its first push. -/
theorem evict_branch_empty_buffer_witness :
    ¬ evictsFromEmpty (mkChannel "v" "video" "H264" 3) ∧
    evictsFromEmpty (mkChannel "z" "video" "H264" 0) := by
  have h := evict_branch_empty_buffer (mkChannel "v" "video" "H264" 3)
    (by decide)
  exact ⟨h.1, h.2 "z" "video" "H264"⟩

theorem classifyNal_keeps (ch : MediaChannel) (data : List Nat) :
    (classifyNal ch data).buffer = ch.buffer ∧
    (classifyNal ch data).maxFrames = ch.maxFrames ∧
    (classifyNal ch data).kind = ch.kind ∧
    (classifyNal ch data).id = ch.id := by
  unfold classifyNal
  split
  · exact ⟨rfl, rfl, rfl, rfl⟩
  · split
    · exact ⟨rfl, rfl, rfl, rfl⟩
    · split
      · exact ⟨rfl, rfl, rfl, rfl⟩
      · split
        · exact ⟨rfl, rfl, rfl, rfl⟩
        · exact ⟨rfl, rfl, rfl, rfl⟩

theorem classifyNal_fields (ch : MediaChannel) (data : List Nat)
    (hne : data ≠ []) :
    (classifyNal ch data).sps = (if nalType data = 7 then data else ch.sps) ∧
    (classifyNal ch data).pps = (if nalType data = 8 then data else ch.pps) ∧
    (classifyNal ch data).idr = (if nalType data = 5 then data else ch.idr) ∧
    (classifyNal ch data).gotIdr =
      (if nalType data = 5 then true else ch.gotIdr) := by
  unfold classifyNal
  rw [if_neg hne]
  by_cases h7 : nalType data = 7
  · simp [h7]
  · by_cases h8 : nalType data = 8
    · simp [h7, h8]
    · by_cases h5 : nalType data = 5
      · simp [h7, h8, h5]
      · simp [h7, h8, h5]

/-- Claim C6: a successful `pushFrame` (the spec's push operation, the
feature-complete `pushFrame2` variant) on a video channel with non-empty
payload inspects the low 5 bits of the first payload byte and updates the
cache before appending to the buffer: type 7 overwrites the cached SPS, type
8 the cached PPS, type 5 caches the IDR unit and sets the sync-observed flag,
and every other type leaves the cache and flag unchanged. -/
theorem pushFrame2_video_classification (chans : Registry) (cid : String)
    (data : List Nat) (kf : Bool) (ts : Nat) (ch : MediaChannel)
    (hch : findCh chans cid = some ch) (hkind : ch.kind = "video")
    (hne : data ≠ []) :
    ∃ ch', findCh (pushFrame2 chans cid data kf ts) cid = some ch' ∧
      ch'.buffer = bufAppend ch.maxFrames ch.buffer ⟨data, kf, ts⟩ ∧
      ch'.sps = (if nalType data = 7 then data else ch.sps) ∧
      ch'.pps = (if nalType data = 8 then data else ch.pps) ∧
      ch'.idr = (if nalType data = 5 then data else ch.idr) ∧
      ch'.gotIdr = (if nalType data = 5 then true else ch.gotIdr) := by
  have hres : pushFrame2 chans cid data kf ts =
      updateCh chans cid (fun ch0 =>
        let ch' := classifyNal ch0 data
        let f : EncodedFrame := ⟨data, kf, ts⟩
        { ch' with buffer := bufAppend ch'.maxFrames ch'.buffer f }) := by
    unfold pushFrame2
    rw [hch]
  have hkeep := classifyNal_keeps ch data
  have hfields := classifyNal_fields ch data hne
  refine ⟨{ classifyNal ch data with
      buffer := bufAppend ch.maxFrames ch.buffer ⟨data, kf, ts⟩ },
    ?_, rfl, hfields.1, hfields.2.1, hfields.2.2.1, hfields.2.2.2⟩
  rw [hres, findCh_updateCh_self, hch]
  simp only [Option.map_some', hkeep.1, hkeep.2.1]

/-- Claim C6 witness: pushing an IDR-typed payload (leading byte 101, low 5
bits 5) through `pushFrame2` on a concrete video channel appends it and sets
the sync-observed flag. -/
theorem pushFrame2_video_classification_witness :
    ∃ ch', findCh (pushFrame2 [("v", mkChannel "v" "video" "H264" 3)] "v"
        [101, 2, 3] true 7) "v" = some ch' ∧
      ch'.buffer = bufAppend 3 [] ⟨[101, 2, 3], true, 7⟩ ∧
      ch'.sps = (if nalType [101, 2, 3] = 7 then [101, 2, 3] else []) ∧
      ch'.pps = (if nalType [101, 2, 3] = 8 then [101, 2, 3] else []) ∧
      ch'.idr = (if nalType [101, 2, 3] = 5 then [101, 2, 3] else []) ∧
      ch'.gotIdr = (if nalType [101, 2, 3] = 5 then true else false) :=
  pushFrame2_video_classification [("v", mkChannel "v" "video" "H264" 3)]
    "v" [101, 2, 3] true 7 (mkChannel "v" "video" "H264" 3)
    (by decide) rfl (by decide)

/-- Claim C4: when `broadcast2` delivers a sync (IDR) unit to a client whose
track is open and the channel caches both SPS and PPS, the delivery batch is
exactly the cached SPS, then the cached PPS, then the sync unit itself, each
as an independent (rewritten) send. -/
theorem broadcast2_idr_prepends_sps_pps (client : Client)
    (ch : MediaChannel)
    (hlat : (latestFrame ch).data ≠ [])
    (hidr : ch.gotIdr = true)
    (htrack : findFlag client.tracks ch.id = some true)
    (hnal : nalType (latestFrame ch).data = 5)
    (hsps : ch.sps ≠ []) (hpps : ch.pps ≠ []) :
    clientChannelSends2 client ch =
      [rewriteFrame ch.sps, rewriteFrame ch.pps,
        rewriteFrame (latestFrame ch).data] := by
  simp [clientChannelSends2, toSend2, hlat, hidr, htrack, hnal, hsps, hpps]

/-- Claim C4 witness: a concrete channel whose latest frame is an IDR unit
with cached SPS and PPS delivers the three-element batch to an open track. -/
theorem broadcast2_idr_prepends_sps_pps_witness :
    clientChannelSends2 ⟨[("v", true)], []⟩
      { id := "v", kind := "video", codec := "H264",
        buffer := [⟨[101, 130, 3, 4, 5, 6, 7, 8, 9, 10, 11, 12], true, 5⟩],
        maxFrames := 3, sps := [103, 1], pps := [104, 2], idr := [101],
        gotIdr := true } =
      [rewriteFrame [103, 1], rewriteFrame [104, 2],
        rewriteFrame [101, 130, 3, 4, 5, 6, 7, 8, 9, 10, 11, 12]] :=
  broadcast2_idr_prepends_sps_pps ⟨[("v", true)], []⟩
    { id := "v", kind := "video", codec := "H264",
      buffer := [⟨[101, 130, 3, 4, 5, 6, 7, 8, 9, 10, 11, 12], true, 5⟩],
      maxFrames := 3, sps := [103, 1], pps := [104, 2], idr := [101],
      gotIdr := true }
    (by decide) rfl (by decide) (by decide) (by decide) (by decide)

/-- A video packet with a non-IDR leading NAL byte (97 &&& 31 = 1), used to
build reachable counterexample states. -/
def pktC5 : List Nat := [97, 130, 3, 4, 5, 6, 7, 8, 9, 10, 11, 12]

/-- A reachable registry: one video channel that has received a single
non-IDR frame through the real `pushFrame`, so its sync-observed flag is
still false. -/
def regC5 : Registry :=
  pushFrame (addChannel [] "v" "video" "H264" 3) "v" pktC5 false 0

/-- The channel stored in `regC5`. -/
def chC5 : MediaChannel := (findCh regC5 "v").getD (mkChannel "x" "x" "x" 1)

/-- A client holding an open media track for channel `v`. -/
def clC5 : Client := ⟨[("v", true)], []⟩

/-- Claim C5 counterexample: on a reachable video-channel state whose
sync-observed flag is still false, `broadcast` (the variant `loop` invokes
for media channels) delivers the buffered payload to a client anyway — so a
payload is delivered before any sync unit was observed, and not every send of
buffered content is gated on the flag. -/
theorem ungated_broadcast_sends_before_idr_cex :
    chC5.gotIdr = false ∧ chC5.kind = "video" ∧ chC5.buffer ≠ [] ∧
    broadcastSends [clC5] regC5 ≠ [] := by decide

/-- Claim C5 (amended): the gated delivery variant `broadcast2` sends no
payload on a channel whose sync-observed flag is false, and the flag starts
false on every freshly created channel; the ungated variant `broadcast`,
which the scheduler's loop invokes for media channels, performs no such
test. -/
theorem broadcast2_gated_on_gotIdr (client : Client) (ch : MediaChannel)
    (h : ch.gotIdr = false) :
    clientChannelSends2 client ch = [] ∧
    ∀ cid kind codec max, (mkChannel cid kind codec max).gotIdr = false := by
  refine ⟨?_, fun _ _ _ _ => rfl⟩
  simp [clientChannelSends2, h]

/-- Claim C5 amended witness: the `regC5` channel (flag false) gets nothing
from `broadcast2`, and a fresh channel starts with the flag false. -/
theorem broadcast2_gated_on_gotIdr_witness :
    clientChannelSends2 clC5 chC5 = [] ∧
    ∀ cid kind codec max, (mkChannel cid kind codec max).gotIdr = false :=
  broadcast2_gated_on_gotIdr clC5 chC5 (by decide)

/-- A reachable registry with one video channel holding a single non-empty
frame, for the media-consumption counterexample. -/
def regC2 : Registry :=
  pushFrame (addChannel [] "vm" "video" "H264" 3) "vm" pktC5 false 0

/-- The channel stored in `regC2`. -/
def chC2 : MediaChannel := (findCh regC2 "vm").getD (mkChannel "x" "x" "x" 1)

/-- A client holding an open media track for channel `vm`. -/
def clC2 : Client := ⟨[("vm", true)], []⟩

/-- Claim C2 counterexample: on a reachable media channel with a non-empty
front frame and a connected open client, a delivery-scheduler pass attempts
delivery (`broadcast` emits a send) yet does NOT consume the front frame:
`loop` discards `broadcast()`'s effect, leaves `delivered == false`, and
breaks with the buffer unchanged. -/
theorem media_front_not_consumed_cex :
    chC2.kind ≠ "data" ∧
    (chC2.buffer.headD ⟨[], false, 0⟩).data ≠ [] ∧
    broadcastSends [clC2] regC2 ≠ [] ∧
    (drainChannelPass [clC2] chC2).buffer = chC2.buffer ∧
    chC2.buffer ≠ [] := by decide

/-- Claim C2 (amended): a delivery-scheduler pass over a media channel never
consumes a non-empty front frame: the delivery verdict is hardwired to
not-delivered for media (`loop` ignores `broadcast()`), so the pass stops at
the first non-empty frame and leaves the buffer unchanged; only empty-payload
frames are consumed, and media frames leave the buffer only by drop-oldest
eviction. -/
theorem media_pass_never_consumes_front (clients : List Client)
    (ch : MediaChannel) (f : EncodedFrame) (rest : List EncodedFrame)
    (hk : ch.kind ≠ "data") (hb : ch.buffer = f :: rest)
    (hf : f.data ≠ []) :
    (drainChannelPass clients ch).buffer = ch.buffer := by
  unfold drainChannelPass deliverFlag
  simp [hk, hb, drainBuffer, hf]

/-- Claim C2 amended witness: the concrete `chC2` pass leaves its buffer
unchanged even with no clients connected. -/
theorem media_pass_never_consumes_front_witness :
    (drainChannelPass [] chC2).buffer = chC2.buffer :=
  media_pass_never_consumes_front [] chC2 ⟨pktC5, false, 0⟩ []
    (by decide) (by decide) (by decide)

theorem drainBuffer_true_eq_nil (buf : List EncodedFrame) :
    drainBuffer true buf = [] := by
  induction buf with
  | nil => rfl
  | cons f rest ih =>
      unfold drainBuffer
      split
      · exact ih
      · simp [ih]

/-- A reachable registry: one data channel that has received a single
empty-payload message through the real `pushFrame`. -/
def regC3 : Registry :=
  pushFrame (addChannel [] "d" "data" "raw" 5) "d" [] false 0

/-- The channel stored in `regC3`. -/
def chC3 : MediaChannel := (findCh regC3 "d").getD (mkChannel "x" "x" "x" 1)

/-- Claim C3 counterexample: on a reachable data channel whose front item has
an empty payload, a scheduler pass with no connected clients (so no open data
sink exists, and `broadcastData` reports false) still removes the item from
the buffer — removal is not equivalent to acceptance by an open sink. -/
theorem data_empty_item_removed_cex :
    chC3.kind = "data" ∧ chC3.buffer ≠ [] ∧
    broadcastData [] "d" = false ∧
    (drainChannelPass [] chC3).buffer = [] := by decide

/-- Claim C3 (amended): for a data channel whose front item has a non-empty
payload, the item is removed by a drain pass iff at least one
currently-open client data sink for the channel exists (`broadcastData`);
when one exists the pass drains the buffered items, otherwise the buffer is
left unchanged with the item still at the front, retried on the next pass;
empty-payload items are instead discarded without any delivery attempt. -/
theorem data_front_removed_iff_open_sink (clients : List Client)
    (ch : MediaChannel) (f : EncodedFrame) (rest : List EncodedFrame)
    (hk : ch.kind = "data") (hb : ch.buffer = f :: rest)
    (hf : f.data ≠ []) :
    (drainChannelPass clients ch).buffer =
      (if broadcastData clients ch.id then [] else ch.buffer) ∧
    ((drainChannelPass clients ch).buffer ≠ ch.buffer ↔
      broadcastData clients ch.id = true) := by
  unfold drainChannelPass deliverFlag
  cases hbc : broadcastData clients ch.id with
  | true =>
      simp only [hk, if_pos rfl, hbc, if_true]
      rw [drainBuffer_true_eq_nil]
      simp [hb]
  | false =>
      simp only [hk, if_pos rfl, hbc, if_false]
      rw [hb]
      simp [drainBuffer, hf]

/-- Claim C3 amended witness: a concrete data channel with one non-empty
item and one client with an open data sink removes the item; the iff holds at
that state. -/
theorem data_front_removed_iff_open_sink_witness :
    (drainChannelPass [⟨[], [("d", true)]⟩]
        { mkChannel "d" "data" "raw" 5 with
          buffer := [⟨[9], false, 0⟩] }).buffer =
      (if broadcastData [⟨[], [("d", true)]⟩] "d" then []
        else [⟨[9], false, 0⟩]) ∧
    ((drainChannelPass [⟨[], [("d", true)]⟩]
        { mkChannel "d" "data" "raw" 5 with
          buffer := [⟨[9], false, 0⟩] }).buffer ≠ [⟨[9], false, 0⟩] ↔
      broadcastData [⟨[], [("d", true)]⟩] "d" = true) :=
  data_front_removed_iff_open_sink [⟨[], [("d", true)]⟩]
    { mkChannel "d" "data" "raw" 5 with buffer := [⟨[9], false, 0⟩] }
    ⟨[9], false, 0⟩ [] rfl rfl (by decide)

theorem nat_and_128_cases (n : Nat) : n &&& 128 = 0 ∨ n &&& 128 = 128 := by
  have h : (128 : Nat) = 2 ^ 7 := by norm_num
  rw [h, Nat.and_two_pow]
  cases hb : n.testBit 7 with
  | false => left; simp
  | true => right; simp

/-- Claim C7: the per-send byte rewrite changes exactly the payload-type
field and the synchronization-source field of an outgoing media frame: byte 1
keeps its marker (high) bit and gets payload type 109 in its low 7 bits, the
SSRC field (bytes 8-11) becomes the fixed per-stream value 123456 big-endian,
and every other byte is sent unchanged. -/
theorem rewrite_changes_only_pt_and_ssrc (bytes : List Nat)
    (h : 12 ≤ bytes.length) :
    (rewriteFrame bytes).length = bytes.length ∧
    (∀ i, i ≠ 1 → ¬(8 ≤ i ∧ i ≤ 11) →
      (rewriteFrame bytes)[i]? = bytes[i]?) ∧
    (∃ b1, (rewriteFrame bytes)[1]? = some b1 ∧
      b1 &&& 128 = bytes.getD 1 0 &&& 128 ∧ b1 &&& 127 = 109) ∧
    (rewriteFrame bytes)[8]? = some 0 ∧
    (rewriteFrame bytes)[9]? = some 1 ∧
    (rewriteFrame bytes)[10]? = some 226 ∧
    (rewriteFrame bytes)[11]? = some 64 := by
  have hlen : ∀ i v, (bytes.set i v).length = bytes.length :=
    fun i v => List.length_set bytes i v
  refine ⟨?_, ?_, ?_, ?_, ?_, ?_, ?_⟩
  · simp [rewriteFrame, setSsrc, rewritePT, List.length_set]
  · intro i hi1 hi8
    unfold rewriteFrame setSsrc rewritePT
    rw [List.getElem?_set_ne (by omega), List.getElem?_set_ne (by omega),
      List.getElem?_set_ne (by omega), List.getElem?_set_ne (by omega),
      List.getElem?_set_ne (by omega)]
  · refine ⟨(if bytes.getD 1 0 &&& 128 ≠ 0 then 128 else 0) ||| 109,
      ?_, ?_, ?_⟩
    · unfold rewriteFrame setSsrc rewritePT
      rw [List.getElem?_set_ne (by omega), List.getElem?_set_ne (by omega),
        List.getElem?_set_ne (by omega), List.getElem?_set_ne (by omega)]
      exact List.getElem?_set_eq_of_lt _ (by omega)
    · rcases nat_and_128_cases (bytes.getD 1 0) with hc | hc
      · rw [hc]
        decide
      · rw [hc]
        decide
    · rcases nat_and_128_cases (bytes.getD 1 0) with hc | hc
      · rw [hc]
        decide
      · rw [hc]
        decide
  · unfold rewriteFrame setSsrc rewritePT
    rw [List.getElem?_set_ne (by omega), List.getElem?_set_ne (by omega),
      List.getElem?_set_ne (by omega)]
    rw [List.getElem?_set_eq_of_lt _ (by simp only [List.length_set]; omega)]
    norm_num
  · unfold rewriteFrame setSsrc rewritePT
    rw [List.getElem?_set_ne (by omega), List.getElem?_set_ne (by omega)]
    rw [List.getElem?_set_eq_of_lt _ (by simp only [List.length_set]; omega)]
    norm_num
  · unfold rewriteFrame setSsrc rewritePT
    rw [List.getElem?_set_ne (by omega)]
    rw [List.getElem?_set_eq_of_lt _ (by simp only [List.length_set]; omega)]
    norm_num
  · unfold rewriteFrame setSsrc rewritePT
    rw [List.getElem?_set_eq_of_lt _ (by simp only [List.length_set]; omega)]

/-- A concrete 12-byte RTP-sized packet with the marker bit set on byte 1. -/
def pktC7 : List Nat := [128, 229, 10, 11, 12, 13, 14, 15, 16, 17, 18, 19]

/-- Claim C7 witness: on the concrete packet the rewrite keeps the length,
leaves byte 0 alone, and writes the SSRC's first byte. -/
theorem rewrite_changes_only_pt_and_ssrc_witness :
    (rewriteFrame pktC7).length = pktC7.length ∧
    (rewriteFrame pktC7)[0]? = pktC7[0]? ∧
    (rewriteFrame pktC7)[8]? = some 0 := by
  have h := rewrite_changes_only_pt_and_ssrc pktC7 (by decide)
  exact ⟨h.1, h.2.1 0 (by decide) (by decide), h.2.2.2.1⟩

theorem drainPops_le_length (delivered : Bool) (buf : List EncodedFrame) :
    drainPops delivered buf ≤ buf.length := by
  induction buf with
  | nil => simp [drainPops]
  | cons f rest ih =>
      unfold drainPops
      split
      · simp; omega
      · split
        · simp; omega
        · simp

theorem drainIPops_le (delivered : Bool) (max : Nat)
    (pushes buf : List EncodedFrame) :
    drainIPops delivered max pushes buf ≤ buf.length + pushes.length := by
  induction pushes generalizing buf with
  | nil =>
      simp only [drainIPops, List.length_nil, Nat.add_zero]
      exact drainPops_le_length delivered buf
  | cons p ps ih =>
      cases buf with
      | nil => simp [drainIPops]
      | cons f rest =>
          unfold drainIPops
          have hap := bufAppend_length_le_succ max rest p
          split
          · have := ih (bufAppend max rest p)
            simp only [List.length_cons]
            omega
          · split
            · have := ih (bufAppend max rest p)
              simp only [List.length_cons]
              omega
            · simp

/-- Claim C8 counterexample: a reachable data channel with exactly one
buffered frame, one client with an open data sink, and two producer pushes
arriving during the pass makes the per-channel drain loop remove three
frames — more than the one frame that was buffered when the pass started, so
the pass is not bounded by the initial buffer contents. -/
theorem drain_pass_exceeds_initial_cex :
    ((findCh (pushFrame (addChannel [] "d" "data" "raw" 10) "d" [1] false 0)
        "d").getD (mkChannel "x" "x" "x" 1)).buffer.length = 1 ∧
    drainPassPopsI [⟨[], [("d", true)]⟩]
      ((findCh (pushFrame (addChannel [] "d" "data" "raw" 10) "d" [1] false 0)
        "d").getD (mkChannel "x" "x" "x" 1))
      [⟨[2], false, 1⟩, ⟨[3], false, 2⟩] = 3 := by decide

/-- Claim C8 (amended): within a single delivery pass the scheduler removes
at most the frames buffered in the channel when the pass started plus the
frames producers push during the pass; the drain loop has no bound tied to
the initial buffer contents alone, but terminates for any finite push
schedule. -/
theorem drain_pass_bounded_by_initial_plus_pushes (clients : List Client)
    (ch : MediaChannel) (pushes : List EncodedFrame) :
    drainPassPopsI clients ch pushes ≤ ch.buffer.length + pushes.length :=
  drainIPops_le (deliverFlag clients ch) ch.maxFrames pushes ch.buffer

end WebRTC
